import Mathlib

/-!
Verification of the training-orchestration pipeline in `bin/dl-sentiwords.py`
(deepnl). The script parses command-line arguments, builds or loads a
vocabulary, constructs an embedding store and a feature converter, creates or
restores a `SentimentTrainer`, runs the training loop with a periodic
checkpoint callback, and finally persists vocabulary, vectors and trainer
state. Below, the script's pure logic is embedded shallowly: optional string
arguments become `Option String` with Python truthiness made explicit,
Python 2 integer division becomes `Int.fdiv`, and the file-system effects of
the save phases become explicit lists of `SaveEvent`s.
-/

namespace DlSentiwords

/-- A vocabulary token: a word or an n-gram joined by a separator. -/
abbrev Token := String

/-- Python truthiness of an optional string value: argparse defaults these
arguments to `None` (falsy), and an empty string is also falsy. -/
def pyTruthy : Option String → Bool
  | none => false
  | some s => s ≠ ""

/-- The command-line arguments of `dl-sentiwords.py` (lines 89-123), with the
argparse defaults. `float`-typed arguments are modelled with `Rat`. -/
structure Args where
  window : Int := 5
  embeddings_size : Int := 50
  iterations : Int := 100
  learning_rate : Rat := 1 / 1000
  hidden : Int := 200
  ngrams : Int := 2
  alpha : Rat := 1 / 2
  train : Option String := none
  output : Option String := none
  vocab : Option String := none
  vectors : Option String := none
  load : Option String := none
  threads : Int := 1
  variant : Option String := none
  verbose : Bool := false
deriving DecidableEq, Repr

/-! ## Vocabulary flattening (lines 146-147)

`tokens = []` followed by `for l in vocab: tokens.extend(l)`. -/

/-- The flattening loop `for l in vocab: tokens.extend(l)` over the per-order
token lists, starting from the empty list. -/
def flattenVocab (vocab : List (List Token)) : List Token :=
  vocab.foldl (fun tokens l => tokens ++ l) []

/-! ## Vocabulary load-or-build decision (lines 140-145)

`if args.vocab and os.path.exists(args.vocab): ... load ... else: ... build`.
The file system is abstracted by a predicate `fileExists`. -/

/-- How the run obtains its vocabulary. -/
inductive VocabSource
  | load
  | build
deriving DecidableEq, Repr

/-- The flag `loaded_vocab` (lines 140-142): true exactly when the `--vocab`
argument is truthy and a file exists at that path. Short-circuit `and` means
`os.path.exists` is only consulted when the argument is truthy. -/
def loadedVocab (args : Args) (fileExists : String → Bool) : Bool :=
  pyTruthy args.vocab && fileExists (args.vocab.getD "")

/-- The load-versus-build branch (lines 141-145). -/
def vocabSource (args : Args) (fileExists : String → Bool) : VocabSource :=
  if loadedVocab args fileExists then VocabSource.load else VocabSource.build

/-! ## Report interval (lines 156-157)

`report_intervals = max(args.iterations / 200, 1)` immediately followed by
`report_intervals = 10000    # DEBUG`. Python 2 `/` on ints is floor
division, hence `Int.fdiv`. -/

/-- The value first assigned to `report_intervals` (line 156). -/
def reportIntervalsComputed (iterations : Int) : Int :=
  max (Int.fdiv iterations 200) 1

/-- The value of `report_intervals` actually passed to `trainer.train`
(lines 156-157): the computed value is reassigned before use. -/
def report_intervals (iterations : Int) : Int :=
  let r := reportIntervalsComputed iterations
  let r := 10000    -- DEBUG (line 157)
  r

/-! ## Trainer creation (lines 33-55)

`create_trainer` either loads a checkpoint and overrides its learning rate,
or constructs a fresh `SentimentTrainer`. The trainer state fields follow the
constructor call `SentimentTrainer(converter, learning_rate, window/2,
window/2, hidden, ngrams, alpha)`; the embedding table kept by reference is
modelled as an identifier. -/

/-- The hyperparameter state of a `SentimentTrainer` as set by the
constructor's arguments or restored by `SentimentTrainer.load`. -/
structure TrainerState where
  learning_rate : Rat
  left_window : Int
  right_window : Int
  hidden_size : Int
  ngrams : Int
  alpha : Rat
  embeddings_ref : Nat
deriving DecidableEq, Repr

/-- `create_trainer(args, converter)` (lines 33-55). `loadCheckpoint` stands
for `SentimentTrainer.load`, the external deserializer: it yields the trainer
state recorded in the checkpoint at the given path. In the load branch only
`learning_rate` is reassigned (line 43); in the fresh branch the constructor
receives `args.window/2` twice (Python 2 floor division, line 47) and the
converter's embedding reference. -/
def create_trainer (args : Args) (converterRef : Nat)
    (loadCheckpoint : String → TrainerState) : TrainerState :=
  if pyTruthy args.load then
    let trainer := loadCheckpoint (args.load.getD "")
    { trainer with learning_rate := args.learning_rate }
  else
    { learning_rate := args.learning_rate
      left_window := Int.fdiv args.window 2
      right_window := Int.fdiv args.window 2
      hidden_size := args.hidden
      ngrams := args.ngrams
      alpha := args.alpha
      embeddings_ref := converterRef }

/-! ## Save events -/

/-- A single persistence side effect of the script. `saveTrainer` records the
argument passed to `trainer.save`, which may be `None` (line 173 passes
`args.output` unguarded). -/
inductive SaveEvent
  | saveVocabulary (path : String)
  | saveVectors (path : Option String)
  | saveTrainer (path : Option String)
deriving DecidableEq, Repr

/-! ## The periodic checkpoint callback (lines 57-64)

```
def saver(model_file, vectors_file):
    def save(trainer):
        if vector_file:
            trainer.save_vectors(vectors_file)
        trainer.save(model_file)
    return save
```

The body of `save` tests the name `vector_file`. Python resolves a free name
in the enclosing function scope, then the module's global scope, then
builtins. The scopes are listed below, read off the source; `vector_file` is
bound in none of them (the enclosing scope binds `vectors_file`, with an s),
so evaluating the test raises `NameError` before any save is performed. -/

/-- Names bound in the enclosing `saver` function scope (parameters and the
inner def, lines 57-64). -/
def saverEnclosingScope : List String :=
  ["model_file", "vectors_file", "save"]

/-- Module-level names bound by the time the callback can run: the imports
(lines 10-28), the two module functions (lines 33, 57), and every name
assigned in the `__main__` block up to the `trainer.train` call
(lines 73-163). The wildcard imports from the deepnl package bring in its
public extractor and network classes; none of them is named `vector_file`. -/
def moduleScope : List String :=
  ["logging", "np", "argparse", "ConfigParser", "sys", "os", "distutils",
   "builddir", "libdir", "TweetReader", "Network", "SentimentTrainer",
   "Converter", "Embeddings", "create_trainer", "saver", "defaults",
   "parser", "args", "log_format", "log_level", "logger", "config",
   "reader", "loaded_vocab", "vocab", "tokens", "l", "embeddings",
   "converter", "trainer", "report_intervals", "converted_sentences"]

/-- Whether a free name occurring in the callback body resolves. -/
def resolvesInSaver (name : String) : Bool :=
  saverEnclosingScope.contains name || moduleScope.contains name

/-- The callback returned by `saver(model_file, vectors_file)` applied to a
trainer (lines 59-63). If the name `vector_file` resolved, the body would
conditionally save vectors and then save the trainer state; since it does
not resolve, the call raises `NameError` and produces no save event. -/
def saverCallback (model_file vectors_file : Option String) :
    Except String (List SaveEvent) :=
  if resolvesInSaver "vector_file" then
    Except.ok ((if pyTruthy vectors_file then [SaveEvent.saveVectors vectors_file] else [])
      ++ [SaveEvent.saveTrainer model_file])
  else
    Except.error "NameError: global name vector_file is not defined"

/-! ## Final save phase (lines 169-173)

```
if args.vocab and not loaded_vocab:
    embeddings.save_vocabulary(args.vocab)
if args.vectors:
    embeddings.save_vectors(args.vectors)
trainer.save(args.output)
``` -/

/-- The sequence of persistence events performed after training completes
normally (lines 169-173), given the `loaded_vocab` flag set earlier. -/
def finalSaves (args : Args) (loaded_vocab : Bool) : List SaveEvent :=
  (if pyTruthy args.vocab && !loaded_vocab then
      [SaveEvent.saveVocabulary (args.vocab.getD "")]
    else [])
  ++ (if pyTruthy args.vectors then [SaveEvent.saveVectors args.vectors] else [])
  ++ [SaveEvent.saveTrainer args.output]

/-! ## The cached sentence generator (line 163)

`converter.generator(reader.sentences, cache=True)` comes from the external
`deepnl.extractors.Converter`, whose code is not part of this repository. -/

/-- Modelled from the spec: `Converter.generator(sentences, cache=true)`
(the `Converter.generator` implementation is missing from src). One full
pass over the cached stream: the first pass converts every sentence and
retains the results in an internal buffer; every subsequent pass replays the
buffer without invoking extraction. Returns the pass's output, the buffer
state after the pass, and the number of extraction invocations made. -/
def iterateCached {α β : Type} (convert : α → β) (sentences : List α) :
    Option (List β) → List β × Option (List β) × Nat
  | some buffered => (buffered, some buffered, 0)
  | none =>
      let out := sentences.map convert
      (out, some out, sentences.length)

/-! ## Pipeline determinism (lines 68-174)

Line 71 executes `np.random.seed(42)` before anything else, so the ambient
process RNG state is discarded. The embedding initialization and the
training-loop updates live in the external deepnl library; they are modelled
from the spec as deterministic functions of the seed and the inputs. -/

/-- Modelled from the spec: a pseudo-random scalar drawn from the
process-wide RNG for row `i`, column `j` (the `Embeddings` random
initializer is missing from src; the spec requires it be a deterministic
function of the seed). Values are abstracted to `Nat`. -/
def prngDraw (seed i j : Nat) : Nat :=
  (seed * 1103515245 + i * 69069 + j * 12345 + 1013904223) % (2 ^ 31)

/-- Modelled from the spec: the Embedding Store's fresh initialization from
the process-wide RNG (`Embeddings.__init__` is missing from src): one row of
`dim` pseudo-random entries per vocabulary token. -/
def initEmbeddings (seed : Nat) (dim : Nat) (tokens : List Token) :
    List (List Nat) :=
  (List.range tokens.length).map fun i =>
    (List.range dim).map fun j => prngDraw seed i j

/-- Modelled from the spec: one training update over one converted sentence
(`SentimentTrainer.train`'s inner update is missing from src; the spec
requires the loop contain no randomness of its own, so the update is a
deterministic function of the current table and the sentence). -/
def trainStep (table : List (List Nat)) (sentence : List Nat) :
    List (List Nat) :=
  table.map fun row => row.map fun x => (x + sentence.sum) % (2 ^ 31)

/-- Modelled from the spec: `trainer.train(stream, iterations, ...)` runs
`iterations` full passes over the converted-sentence stream, updating the
shared embedding table once per sentence, deterministically. -/
def trainLoop (iterations : Nat) (stream : List (List Nat))
    (table : List (List Nat)) : List (List Nat) :=
  Nat.rec table (fun _ acc => stream.foldl trainStep acc) iterations

/-- The observable outcome of one pipeline run: the freshly initialized
embedding table, the table after training, and the final save events. -/
structure RunResult where
  initialTable : List (List Nat)
  finalTable : List (List Nat)
  saves : List SaveEvent
deriving DecidableEq, Repr

/-- The `__main__` pipeline (lines 68-174) for a fresh run (no `--load`, no
pre-existing vocabulary file), as a function of the ambient process RNG seed
`osSeed`, the arguments, the per-order vocabulary built from the corpus, and
the converted corpus stream. Line 71 replaces the ambient seed with 42
before any initialization, so `osSeed` is never consulted. -/
def pipelineRun (osSeed : Nat) (args : Args)
    (vocab : List (List Token)) (stream : List (List Nat)) : RunResult :=
  let _ := osSeed
  let seed := 42    -- np.random.seed(42), line 71
  let tokens := flattenVocab vocab
  let table := initEmbeddings seed args.embeddings_size.toNat tokens
  let final := trainLoop args.iterations.toNat stream table
  { initialTable := table
    finalTable := final
    saves := finalSaves args false }

/-- A checkpoint deserializer used as a concrete instantiation in witnesses. -/
def zeroCheckpoint : String → TrainerState := fun _ =>
  { learning_rate := 0, left_window := 0, right_window := 0,
    hidden_size := 0, ngrams := 0, alpha := 0, embeddings_ref := 0 }

/-- Auxiliary: the `extend` loop starting from accumulator `acc` appends the
concatenation of all the lists. -/
theorem foldl_extend_eq_append (vocab : List (List Token)) (acc : List Token) :
    vocab.foldl (fun tokens l => tokens ++ l) acc = acc ++ vocab.flatten := by
  induction vocab generalizing acc with
  | nil => simp
  | cons hd tl ih => simp [ih, List.append_assoc]

/-!  ## Theorems for the claims  -/

/-- C1: the claim states that each report-interval boundary performs an
embeddings-only save (when a vectors path is configured) followed by a full
trainer-state save, both succeeding. In the code the callback's first
statement tests the unbound name `vector_file` (line 61; the enclosing
parameter is `vectors_file`), so every invocation of the periodic save
callback raises `NameError` and performs no save at all, whatever paths were
configured. -/
theorem saver_callback_raises_nameerror (model_file vectors_file : Option String) :
    saverCallback model_file vectors_file =
      Except.error "NameError: global name vector_file is not defined" := by
  rfl

/-- C2: `report_intervals` is first computed as `max(iterations / 200, 1)`
(line 156) and then unconditionally overwritten by 10000 (line 157), so the
value passed to `trainer.train` is always 10000. -/
theorem report_intervals_always_10000 (iterations : Int) :
    reportIntervalsComputed iterations = max (Int.fdiv iterations 200) 1 ∧
    report_intervals iterations = 10000 :=
  ⟨rfl, rfl⟩

/-- C3: the pipeline loads the persisted vocabulary exactly when a truthy
vocabulary path is supplied and a file exists at it; in every other case it
builds a fresh vocabulary from the corpus (lines 140-145). -/
theorem vocab_load_exactly_when_usable (args : Args) (fileExists : String → Bool) :
    (vocabSource args fileExists = VocabSource.load ↔
      pyTruthy args.vocab = true ∧ fileExists (args.vocab.getD "") = true) ∧
    (vocabSource args fileExists = VocabSource.build ↔
      ¬(pyTruthy args.vocab = true ∧ fileExists (args.vocab.getD "") = true)) := by
  cases h1 : pyTruthy args.vocab <;>
    cases h2 : fileExists (args.vocab.getD "") <;>
      simp [vocabSource, loadedVocab, h1, h2]

/-- C4: when a checkpoint path is supplied, the trainer is the deserialized
checkpoint state with only its learning rate overwritten by the configured
value; every other field is exactly as deserialized (lines 40-43). -/
theorem create_trainer_load_overrides_only_lr (args : Args) (converterRef : Nat)
    (loadCheckpoint : String → TrainerState) (path : String)
    (hload : args.load = some path) (hne : path ≠ "") :
    create_trainer args converterRef loadCheckpoint =
      { loadCheckpoint path with learning_rate := args.learning_rate } := by
  have ht : pyTruthy (some path) = true := by
    simpa [pyTruthy] using hne
  simp [create_trainer, hload, ht]

/-- Witness for C4 at a concrete checkpoint and arguments. -/
theorem create_trainer_load_overrides_only_lr_witness :
    create_trainer { load := some "model.dat", learning_rate := 3/100 } 5
        zeroCheckpoint =
      { learning_rate := 3/100, left_window := 0, right_window := 0,
        hidden_size := 0, ngrams := 0, alpha := 0, embeddings_ref := 0 } :=
  create_trainer_load_overrides_only_lr
    { load := some "model.dat", learning_rate := 3/100 } 5 zeroCheckpoint
    "model.dat" rfl (by decide)

/-- C5: `np.random.seed(42)` (line 71) runs before any initialization, so
two runs with the same configuration, corpus and pre-existing files produce
identical results — the ambient process RNG seed is irrelevant: initial
embedding tables and final trained state coincide. -/
theorem pipeline_deterministic (s₁ s₂ : Nat) (args : Args)
    (vocab : List (List Token)) (stream : List (List Nat)) :
    pipelineRun s₁ args vocab stream = pipelineRun s₂ args vocab stream := by
  rfl

/-- C6: with `cache=true`, a second full iteration of the stream yields the
sequence of the first iteration element-wise and performs zero extraction
invocations; the first pass converts every sentence exactly once. -/
theorem cached_generator_idempotent {α β : Type} (convert : α → β)
    (sentences : List α) :
    (iterateCached convert sentences none).1 = sentences.map convert ∧
    (iterateCached convert sentences none).2.2 = sentences.length ∧
    (iterateCached convert sentences
        (iterateCached convert sentences none).2.1).1 =
      (iterateCached convert sentences none).1 ∧
    (iterateCached convert sentences
        (iterateCached convert sentences none).2.1).2.2 = 0 :=
  ⟨rfl, rfl, rfl, rfl⟩

/-- C7: the token list handed to `Embeddings` (lines 146-148) is the
flattening of the per-order vocabulary lists: their concatenation in order
of increasing n-gram order, preserving each list's internal order, and the
flattening step itself neither drops nor duplicates a token (each token's
multiplicity is the sum of its per-order multiplicities). -/
theorem tokens_flattening_is_join (vocab : List (List Token)) :
    flattenVocab vocab = vocab.flatten ∧
    ∀ t : Token, (flattenVocab vocab).count t =
      (vocab.map fun l => l.count t).sum := by
  have h : flattenVocab vocab = vocab.flatten := by
    simpa using foldl_extend_eq_append vocab []
  refine ⟨h, fun t => ?_⟩
  rw [h]
  clear h
  induction vocab with
  | nil => simp
  | cons hd tl ih => simp [List.count_append, ih]

/-- C8: with no checkpoint loaded, the fresh trainer receives
`args.window/2` for both the left and right context windows (line 47,
Python 2 floor division), so the two halves are always equal. -/
theorem fresh_trainer_windows (args : Args) (converterRef : Nat)
    (loadCheckpoint : String → TrainerState)
    (h : pyTruthy args.load = false) :
    (create_trainer args converterRef loadCheckpoint).left_window =
      Int.fdiv args.window 2 ∧
    (create_trainer args converterRef loadCheckpoint).right_window =
      Int.fdiv args.window 2 ∧
    (create_trainer args converterRef loadCheckpoint).left_window =
      (create_trainer args converterRef loadCheckpoint).right_window := by
  simp [create_trainer, h]

/-- Witness for C8 at the default window size 5: both halves are 2. -/
theorem fresh_trainer_windows_witness :
    (create_trainer { window := 5 } 0 zeroCheckpoint).left_window = 2 ∧
    (create_trainer { window := 5 } 0 zeroCheckpoint).right_window = 2 := by
  have h := fresh_trainer_windows { window := 5 } 0 zeroCheckpoint rfl
  exact ⟨h.1.trans (by decide), h.2.1.trans (by decide)⟩

/-- C9: with a vocabulary path supplied, if no file exists there the run
builds the vocabulary and the final phase writes it to that path; if a file
exists there the vocabulary is loaded and the final phase never writes a
vocabulary file (lines 140-145 and 169-170). -/
theorem vocab_save_frame (args : Args) (fileExists : String → Bool)
    (p : String) (hp : args.vocab = some p) (hne : p ≠ "") :
    (fileExists p = false →
      vocabSource args fileExists = VocabSource.build ∧
      SaveEvent.saveVocabulary p ∈
        finalSaves args (loadedVocab args fileExists)) ∧
    (fileExists p = true →
      vocabSource args fileExists = VocabSource.load ∧
      ∀ q : String, SaveEvent.saveVocabulary q ∉
        finalSaves args (loadedVocab args fileExists)) := by
  have hpt : pyTruthy args.vocab = true := by
    rw [hp]; simpa [pyTruthy] using hne
  have hgd : args.vocab.getD "" = p := by rw [hp]; rfl
  constructor
  · intro hex
    have hl : loadedVocab args fileExists = false := by
      simp [loadedVocab, hgd, hpt, hex]
    refine ⟨by simp [vocabSource, hl], ?_⟩
    simp [finalSaves, hl, hpt, hgd]
  · intro hex
    have hl : loadedVocab args fileExists = true := by
      simp [loadedVocab, hgd, hpt, hex]
    refine ⟨by simp [vocabSource, hl], fun q => ?_⟩
    cases hv : pyTruthy args.vectors <;> simp [finalSaves, hl, hpt, hv]

/-- Witness for C9 with path "vocab.txt" and no pre-existing file. -/
theorem vocab_save_frame_witness :
    vocabSource { vocab := some "vocab.txt" } (fun _ => false) =
      VocabSource.build ∧
    SaveEvent.saveVocabulary "vocab.txt" ∈
      finalSaves { vocab := some "vocab.txt" }
        (loadedVocab { vocab := some "vocab.txt" } (fun _ => false)) :=
  (vocab_save_frame { vocab := some "vocab.txt" } (fun _ => false)
    "vocab.txt" rfl (by decide)).1 rfl

/-- C10: the final trainer-state save happens on every normally completing
run with `args.output` as argument, unguarded (line 173, even when the
output path is `None`), while a final vectors save happens exactly when a
truthy vectors path was supplied (lines 171-172). -/
theorem final_trainer_save_unconditional (args : Args) (loaded_vocab : Bool) :
    SaveEvent.saveTrainer args.output ∈ finalSaves args loaded_vocab ∧
    ((∃ p, SaveEvent.saveVectors p ∈ finalSaves args loaded_vocab) ↔
      pyTruthy args.vectors = true) := by
  constructor
  · simp [finalSaves]
  · cases hv : pyTruthy args.vectors <;>
      simp only [finalSaves, hv, if_true, if_false] <;>
        split <;> simp

end DlSentiwords
